import Mathlib

/-!
Shallow embedding of `tool/clusterfuzz/stackdriver_logging.py`.

The module is a logging-instrumentation decorator: `make_basic_params` builds
an event record, `send_log` enriches it (version, user, session id, message)
and wraps it in a transport envelope, and `log` produces a `wrapped` callable
that sends a start event, runs the wrapped operation, sends a success or
failure event, re-raises or converts "expected" exceptions into a process
exit, and always prints a trailer line.

Modelling choices:
- Field values that Python passes through opaquely (testcase id, build type,
  the `current`, `j`, `iterations`, `target_args` arguments) are `String`;
  the truthiness test `if params[disableGoma]` makes `disableGoma` a `Bool`.
- A Python exception is `Exc` with a class name, a message, and an
  `expected` flag modelling `isinstance(e, (KeyboardInterrupt,
  common.ExpectedException))` (the `common` module is an external
  collaborator, not part of this file).
- Ambient process data read by `send_log` (`common.get_version()`,
  `os.environ.get(USER)`, the module-level `SESSION_ID`, and
  `local_logging.LOG_FILE_PATH`) is an `Env` of opaque strings.
- The outcome of each network transmission (`http_auth.request`, including
  the credential loading preceding it) is an oracle `Nat → Option Exc`
  giving, for the n-th `send_log` call of an invocation, the exception it
  raises (`none` = the send returns normally).
- `wrapped` is the decorated callable: given the behaviour of the wrapped
  operation (`Except Exc α`: normal return of a value, or a raised
  exception) and the send oracle, it returns the full observable trace:
  the attempted sends in order, whether the operation was invoked, the
  final outcome (return / raised exception / `sys.exit`), the `logger.info`
  messages, and the lines printed to standard output.
-/

namespace Clusterfuzz

/-- Ambient process data read by the module: `common.get_version()`,
`os.environ.get(USER)`, the module-level `SESSION_ID`, and
`local_logging.LOG_FILE_PATH` (the latter two live outside this file). -/
structure Env where
  version : String
  user : String
  sessionId : String
  logFilePath : String
deriving Repr, DecidableEq

/-- The event record (the Python params dict): the ten fields written by
`make_basic_params`, plus the fields added later by `send_log`,
`send_success` and `send_failure`, absent (`none`) until added. -/
structure Params where
  testcaseId : String
  buildType : String
  current : String
  command : String
  disableGoma : Bool
  j : String
  iterations : String
  disableXvfb : Bool
  targetArgs : String
  editMode : Bool
  version : Option String := none
  user : Option String := none
  sessionId : Option String := none
  message : Option String := none
  success : Option Bool := none
  exception : Option String := none
deriving Repr, DecidableEq

/-- One element of the `entries` list of the transport envelope. -/
structure LogEntry where
  jsonPayload : Params
  severity : String
deriving Repr, DecidableEq

/-- The `resource` object of the transport envelope. -/
structure Resource where
  type : String
  project_id : String
deriving Repr, DecidableEq

/-- The transport envelope (`structure` in the Python source) POSTed to
`https://logging.googleapis.com/v2/entries:write`. -/
structure LogStructure where
  logName : String
  resource : Resource
  entries : List LogEntry
deriving Repr, DecidableEq

/-- A Python exception: class name, message, and whether it is an instance of
`(KeyboardInterrupt, common.ExpectedException)` — the category caught by the
outer except clause of `wrapped` (`common.ExpectedException` is defined in the
external `common` module). -/
structure Exc where
  className : String
  msg : String
  expected : Bool
deriving Repr, DecidableEq

/-- Python truthiness of the `stacktrace` argument of `send_log`
(`None` and the empty string are falsy). -/
def strTruthy : Option String → Bool
  | none => false
  | some s => s != ""

/-- Models the Python standard library call `traceback.format_exc()` for an
in-flight exception `e`: a stack-trace string naming the exception class and
message.  Its exact text is irrelevant to the claims; what matters is that it
is a fixed non-empty string derived from `e`. -/
def format_exc (e : Exc) : String :=
  "Traceback (most recent call last):\n" ++ (e.className ++ (": " ++ (e.msg ++ "\n")))

/-- `make_basic_params` from the source: the basic parameter dict. -/
def make_basic_params (command testcase_id build current : String)
    (disable_goma : Bool) (j iterations : String) (disable_xvfb : Bool)
    (target_args : String) (edit_mode : Bool) : Params :=
  { testcaseId := testcase_id
    buildType := build
    current := current
    command := command
    disableGoma := disable_goma
    j := j
    iterations := iterations
    disableXvfb := disable_xvfb
    targetArgs := target_args
    editMode := edit_mode }

/-- The message prefix computed by `send_log` from the `success` field. -/
def prefixOf : Option Bool → String
  | some true => "successfully finished"
  | some false => "unsuccessfully finished"
  | none => "started"

/-- The human-readable message formatted by `send_log` (before the optional
stack-trace suffix); `params[user]` has just been set to the ambient user. -/
def logMessage (env : Env) (p : Params) : String :=
  env.user ++ " " ++ prefixOf p.success ++ " running " ++ p.command ++
    " with testcase=" ++ p.testcaseId ++ ", build_type=" ++ p.buildType ++
    ", current=" ++ p.current ++ ", and goma=" ++
    (if p.disableGoma then "disabled" else "enabled")

/-- The pure part of `send_log`: enrich the record in place (version, user,
session id, message) and build the transport envelope.  Returns the enriched
record (the `jsonPayload`) and the envelope; the network transmission itself
is resolved by the send oracle in `wrapped`. -/
def send_log (env : Env) (params : Params) (stacktrace : Option String) :
    Params × LogStructure :=
  let p1 : Params :=
    { params with
        version := some env.version
        user := some env.user
        sessionId := some env.sessionId }
  let msg : String :=
    if strTruthy stacktrace then logMessage env p1 ++ "\n" ++ stacktrace.getD ""
    else logMessage env p1
  let p2 : Params := { p1 with message := some msg }
  (p2,
    { logName := "projects/clusterfuzz-tools/logs/client"
      resource := { type := "project", project_id := "clusterfuzz-tools" }
      entries := [{ jsonPayload := p2
                    severity := if strTruthy stacktrace then "ERROR" else "INFO" }] })

/-- The keyword arguments a caller passes to the wrapped callable; `wrapped`
forwards them (plus `command`) to `make_basic_params`. -/
structure CallArgs where
  testcase_id : String
  build : String
  current : String
  disable_goma : Bool
  j : String
  iterations : String
  disable_xvfb : Bool
  target_args : String
  edit_mode : Bool
deriving Repr, DecidableEq

/-- `make_basic_params(command=cmd, **kwargs)` as called by the three senders. -/
def basicParams (cmd : String) (ca : CallArgs) : Params :=
  make_basic_params cmd ca.testcase_id ca.build ca.current ca.disable_goma
    ca.j ca.iterations ca.disable_xvfb ca.target_args ca.edit_mode

/-- `send_start`: the basic record, no extra fields, no stack trace. -/
def send_start (env : Env) (cmd : String) (ca : CallArgs) : Params × LogStructure :=
  send_log env (basicParams cmd ca) none

/-- `send_success`: the basic record with `success = True`. -/
def send_success (env : Env) (cmd : String) (ca : CallArgs) : Params × LogStructure :=
  send_log env { basicParams cmd ca with success := some true } none

/-- `send_failure`: the basic record with the exception class name and
`success = False`, sent together with the stack trace. -/
def send_failure (env : Env) (cmd : String) (ca : CallArgs)
    (exception_name : String) (stacktrace : String) : Params × LogStructure :=
  send_log env
    { basicParams cmd ca with exception := some exception_name, success := some false }
    (some stacktrace)

/-- `func.__module__.split('.')[-1]`: the last dotted component of the wrapped
operation's module name (`String.splitOn` never returns an empty list). -/
def commandName (module : String) : String :=
  (module.splitOn ".").getLastD ""

/-- One attempted `send_log` call: the enriched record and envelope it built,
and the exception the transmission raised (`none` = delivered). -/
structure Attempt where
  record : Params
  envelope : LogStructure
  sendError : Option Exc
deriving Repr, DecidableEq

/-- How the wrapped callable terminates: normal return (of `None`),
an exception propagating to the caller, or `sys.exit code`. -/
inductive WrapOutcome
  | ret : WrapOutcome
  | raised : Exc → WrapOutcome
  | exited : Nat → WrapOutcome
deriving Repr, DecidableEq

/-- Result of the inner try/except of `wrapped`: the attempted sends in
order, whether the wrapped operation was invoked, and the exception escaping
the inner block (`none` when it completes normally). -/
structure InnerResult where
  events : List Attempt
  funcInvoked : Bool
  escaping : Option Exc
deriving Repr, DecidableEq

/-- The full observable trace of one call of the wrapped callable. -/
structure WrapResult where
  events : List Attempt
  funcInvoked : Bool
  outcome : WrapOutcome
  logged : List String
  prints : List String
deriving Repr, DecidableEq

/-- The inner `try … except BaseException` of `wrapped`:
`send_start`, the wrapped operation, `send_success`; any exception from those
three goes through `send_failure` (with `traceback.format_exc()`) and is then
re-raised — unless `send_failure` itself raises, in which case that new
exception escapes instead.  `oracle n` is the exception raised by the n-th
`send_log` transmission of this invocation (`none` = it returns). -/
def innerRun {α : Type} (env : Env) (cmd : String) (ca : CallArgs)
    (funcRes : Except Exc α) (oracle : Nat → Option Exc) : InnerResult :=
  let startA := send_start env cmd ca
  match oracle 0 with
  | some e1 =>
    let failA := send_failure env cmd ca e1.className (format_exc e1)
    match oracle 1 with
    | some e2 =>
      { events := [⟨startA.1, startA.2, some e1⟩, ⟨failA.1, failA.2, some e2⟩]
        funcInvoked := false
        escaping := some e2 }
    | none =>
      { events := [⟨startA.1, startA.2, some e1⟩, ⟨failA.1, failA.2, none⟩]
        funcInvoked := false
        escaping := some e1 }
  | none =>
    match funcRes with
    | Except.error ef =>
      let failA := send_failure env cmd ca ef.className (format_exc ef)
      match oracle 1 with
      | some e2 =>
        { events := [⟨startA.1, startA.2, none⟩, ⟨failA.1, failA.2, some e2⟩]
          funcInvoked := true
          escaping := some e2 }
      | none =>
        { events := [⟨startA.1, startA.2, none⟩, ⟨failA.1, failA.2, none⟩]
          funcInvoked := true
          escaping := some ef }
    | Except.ok _ =>
      let succA := send_success env cmd ca
      match oracle 1 with
      | some es =>
        let failA := send_failure env cmd ca es.className (format_exc es)
        match oracle 2 with
        | some e3 =>
          { events := [⟨startA.1, startA.2, none⟩, ⟨succA.1, succA.2, some es⟩,
                       ⟨failA.1, failA.2, some e3⟩]
            funcInvoked := true
            escaping := some e3 }
        | none =>
          { events := [⟨startA.1, startA.2, none⟩, ⟨succA.1, succA.2, some es⟩,
                       ⟨failA.1, failA.2, none⟩]
            funcInvoked := true
            escaping := some es }
      | none =>
        { events := [⟨startA.1, startA.2, none⟩, ⟨succA.1, succA.2, none⟩]
          funcInvoked := true
          escaping := none }

/-- The trailer line printed by the `finally` clause of `wrapped`. -/
def trailerLine (env : Env) : String :=
  "\nDetailed log of this run can be found in: " ++ env.logFilePath

/-- The wrapped callable produced by `log func`: run the inner block, then
apply the outer `except (KeyboardInterrupt, common.ExpectedException)` clause
(log a short message, `sys.exit(1)`) and the `finally` clause (print the
trailer line).  `modName` is `func.__module__`; `funcRes` is the behaviour of
`func(*args, **kwargs)`. -/
def wrapped {α : Type} (env : Env) (modName : String) (ca : CallArgs)
    (funcRes : Except Exc α) (oracle : Nat → Option Exc) : WrapResult :=
  let r := innerRun env (commandName modName) ca funcRes oracle
  { events := r.events
    funcInvoked := r.funcInvoked
    outcome :=
      match r.escaping with
      | none => WrapOutcome.ret
      | some e => if e.expected then WrapOutcome.exited 1 else WrapOutcome.raised e
    logged :=
      match r.escaping with
      | none => []
      | some e => if e.expected then [e.className ++ ": " ++ e.msg] else []
    prints := [trailerLine env] }

/-- `s` starts with `p` (as strings). -/
def StartsWithS (s p : String) : Prop := ∃ t : String, s = p ++ t

/-- `sub` occurs as a literal substring of `s`. -/
def ContainsS (s sub : String) : Prop := ∃ a b : String, s = a ++ (sub ++ b)

end Clusterfuzz

namespace Clusterfuzz

/-! Helper lemmas shared by the claim theorems. -/

theorem format_exc_ne (e : Exc) : format_exc e ≠ "" := by
  intro h
  have hl := congrArg String.length h
  simp [format_exc, String.length_append] at hl
  exact (by decide : ¬ ("Traceback (most recent call last):\n".length = 0)) hl.1

theorem strTruthy_some {s : String} (hs : s ≠ "") : strTruthy (some s) = true := by
  simp [strTruthy, hs]

theorem send_log_message (env : Env) (p : Params) (st : Option String) :
    (send_log env p st).1.message =
      some (if strTruthy st then logMessage env p ++ "\n" ++ st.getD ""
            else logMessage env p) := rfl

theorem startsWithS_iff (s p : String) :
    StartsWithS s p ↔ p.data.isPrefixOf s.data = true := by
  rw [ List.isPrefixOf_iff_prefix]
  constructor
  · rintro ⟨t, rfl⟩
    exact ⟨t.data, (String.data_append p t).symm⟩
  · rintro ⟨t, ht⟩
    refine ⟨⟨t⟩, String.ext ?_⟩
    rw [String.data_append]
    exact ht.symm

theorem startsWithS_append {s p : String} (h : StartsWithS s p) (x : String) :
    StartsWithS (s ++ x) p := by
  obtain ⟨t, rfl⟩ := h
  exact ⟨t ++ x, String.append_assoc p t x⟩

theorem containsS_append {s sub : String} (h : ContainsS s sub) (x : String) :
    ContainsS (s ++ x) sub := by
  obtain ⟨a, b, rfl⟩ := h
  refine ⟨a, b ++ x, ?_⟩
  simp [String.append_assoc]

theorem logMessage_facts (env : Env) (p : Params) :
    StartsWithS (logMessage env p) (env.user ++ " " ++ prefixOf p.success) ∧
    ContainsS (logMessage env p) env.user ∧
    ContainsS (logMessage env p) p.command ∧
    ContainsS (logMessage env p) p.testcaseId ∧
    ContainsS (logMessage env p) p.buildType ∧
    (p.disableGoma = true → ContainsS (logMessage env p) "disabled") ∧
    (p.disableGoma = false → ContainsS (logMessage env p) "enabled") := by
  refine ⟨⟨" running " ++ p.command ++ " with testcase=" ++ p.testcaseId ++
            ", build_type=" ++ p.buildType ++ ", current=" ++ p.current ++
            ", and goma=" ++ (if p.disableGoma then "disabled" else "enabled"),
          by simp [logMessage, String.append_assoc]⟩,
         ⟨"", " " ++ prefixOf p.success ++ " running " ++ p.command ++
            " with testcase=" ++ p.testcaseId ++ ", build_type=" ++ p.buildType ++
            ", current=" ++ p.current ++ ", and goma=" ++
            (if p.disableGoma then "disabled" else "enabled"),
          by simp [logMessage, String.append_assoc]⟩,
         ⟨env.user ++ " " ++ prefixOf p.success ++ " running ",
          " with testcase=" ++ p.testcaseId ++ ", build_type=" ++ p.buildType ++
            ", current=" ++ p.current ++ ", and goma=" ++
            (if p.disableGoma then "disabled" else "enabled"),
          by simp [logMessage, String.append_assoc]⟩,
         ⟨env.user ++ " " ++ prefixOf p.success ++ " running " ++ p.command ++
            " with testcase=",
          ", build_type=" ++ p.buildType ++ ", current=" ++ p.current ++
            ", and goma=" ++ (if p.disableGoma then "disabled" else "enabled"),
          by simp [logMessage, String.append_assoc]⟩,
         ⟨env.user ++ " " ++ prefixOf p.success ++ " running " ++ p.command ++
            " with testcase=" ++ p.testcaseId ++ ", build_type=",
          ", current=" ++ p.current ++ ", and goma=" ++
            (if p.disableGoma then "disabled" else "enabled"),
          by simp [logMessage, String.append_assoc]⟩,
         ?_, ?_⟩
  · intro hg
    refine ⟨env.user ++ " " ++ prefixOf p.success ++ " running " ++ p.command ++
              " with testcase=" ++ p.testcaseId ++ ", build_type=" ++ p.buildType ++
              ", current=" ++ p.current ++ ", and goma=", "", ?_⟩
    simp [logMessage, hg, String.append_assoc]
  · intro hg
    refine ⟨env.user ++ " " ++ prefixOf p.success ++ " running " ++ p.command ++
              " with testcase=" ++ p.testcaseId ++ ", build_type=" ++ p.buildType ++
              ", current=" ++ p.current ++ ", and goma=", "", ?_⟩
    simp [logMessage, hg, String.append_assoc]

/-! Concrete values used by the witness theorems. -/

/-- A concrete ambient environment. -/
def envW : Env :=
  { version := "0.2.2rc10"
    user := "alice"
    sessionId := "alice:1500000000.0:a1b2c3"
    logFilePath := "/home/alice/.clusterfuzz/logs/output.log" }

/-- Concrete keyword arguments of one invocation. -/
def caW : CallArgs :=
  { testcase_id := "1234"
    build := "chromium"
    current := "False"
    disable_goma := false
    j := "8"
    iterations := "10"
    disable_xvfb := false
    target_args := "--repro"
    edit_mode := false }

/-- A send oracle under which every transmission returns normally. -/
def oracleNone : Nat → Option Exc := fun _ => none

/-- A concrete unexpected exception raised by a wrapped operation. -/
def excV : Exc := { className := "ValueError", msg := "bad input", expected := false }

/-- A concrete expected-category exception. -/
def excE : Exc := { className := "ExpectedException", msg := "resource missing", expected := true }

/-- A concrete user interrupt (also expected-category). -/
def excK : Exc := { className := "KeyboardInterrupt", msg := "", expected := true }

/-- A concrete transport error raised by a send. -/
def excH : Exc := { className := "HttpLib2Error", msg := "network down", expected := false }

/-- A send oracle whose first transmission raises `excH`. -/
def oracleFail0 : Nat → Option Exc := fun n => if n = 0 then some excH else none

/-- A send oracle whose second transmission raises `excH`. -/
def oracleFail1 : Nat → Option Exc := fun n => if n = 1 then some excH else none

/-- A concrete ambient environment for the C4 counterexample. -/
def envX : Env :=
  { version := "0.2.2rc10"
    user := "alice"
    sessionId := "alice:1:2"
    logFilePath := "log.txt" }

/-- A concrete record whose testcase id is the string "disabled" while the
goma-disable flag is false, and whose success field is absent. -/
def paramsX : Params :=
  make_basic_params "reproduce" "disabled" "chromium" "False" false "8" "10" false "" false

/-- A concrete record with the goma-disable flag true. -/
def paramsY : Params :=
  make_basic_params "reproduce" "1234" "chromium" "True" true "8" "10" true "--x" true

end Clusterfuzz

namespace Clusterfuzz

/-- C1: a wrapped operation that returns normally, with both event sends
returning normally, produces exactly two events — first a start event whose
record has no success field, then a success event with success true — both
carrying the ambient session id and the command name, the last dotted
component of the wrapped operation's module name. -/
theorem C1_normal_return_two_events (env : Env) (modName : String) (ca : CallArgs)
    {α : Type} (v : α) (oracle : Nat → Option Exc)
    (h0 : oracle 0 = none) (h1 : oracle 1 = none) :
    ∃ a0 a1 : Attempt,
      (wrapped env modName ca (Except.ok v) oracle).events = [a0, a1] ∧
      a0.record.success = none ∧
      a1.record.success = some true ∧
      a0.record.sessionId = some env.sessionId ∧
      a1.record.sessionId = some env.sessionId ∧
      a0.record.command = commandName modName ∧
      a1.record.command = commandName modName ∧
      commandName modName = (modName.splitOn ".").getLastD "" := by
  refine ⟨⟨(send_start env (commandName modName) ca).1,
           (send_start env (commandName modName) ca).2, none⟩,
          ⟨(send_success env (commandName modName) ca).1,
           (send_success env (commandName modName) ca).2, none⟩,
          ?_, ?_, ?_, ?_, ?_, ?_, ?_, rfl⟩
  · simp [wrapped, innerRun, h0, h1]
  · simp [send_start, send_log, basicParams, make_basic_params]
  · simp [send_success, send_log, basicParams, make_basic_params]
  · simp [send_start, send_log, basicParams, make_basic_params]
  · simp [send_success, send_log, basicParams, make_basic_params]
  · simp [send_start, send_log, basicParams, make_basic_params]
  · simp [send_success, send_log, basicParams, make_basic_params]

/-- Witness for C1 at a concrete environment, call and operation. -/
theorem C1_normal_return_two_events_witness :
    oracleNone 0 = none ∧
    ∃ a0 a1 : Attempt,
      (wrapped envW "clusterfuzz.commands.reproduce" caW (Except.ok (0 : Nat))
        oracleNone).events = [a0, a1] ∧
      a0.record.success = none ∧
      a1.record.success = some true ∧
      a0.record.sessionId = some envW.sessionId ∧
      a1.record.sessionId = some envW.sessionId ∧
      a0.record.command = commandName "clusterfuzz.commands.reproduce" ∧
      a1.record.command = commandName "clusterfuzz.commands.reproduce" ∧
      commandName "clusterfuzz.commands.reproduce" =
        ("clusterfuzz.commands.reproduce".splitOn ".").getLastD "" :=
  ⟨rfl, C1_normal_return_two_events envW "clusterfuzz.commands.reproduce" caW
    (0 : Nat) oracleNone rfl rfl⟩

/-- C2: a wrapped operation that raises an unexpected exception, with both
event sends returning normally, produces a start event and a failure event
whose record has success false, the exception class name, and a non-empty
stack trace appended to the message on a new line; the original exception
itself is then re-raised to the caller. -/
theorem C2_failure_event_and_reraise (env : Env) (modName : String) (ca : CallArgs)
    {α : Type} (e : Exc) (oracle : Nat → Option Exc)
    (hne : e.expected = false) (h0 : oracle 0 = none) (h1 : oracle 1 = none) :
    ∃ a0 a1 : Attempt,
      (wrapped env modName ca (Except.error e : Except Exc α) oracle).events = [a0, a1] ∧
      a0.record.success = none ∧
      a1.record.success = some false ∧
      a1.record.exception = some e.className ∧
      (∃ base : String, a1.record.message = some (base ++ "\n" ++ format_exc e)) ∧
      format_exc e ≠ "" ∧
      (wrapped env modName ca (Except.error e : Except Exc α) oracle).outcome =
        WrapOutcome.raised e := by
  refine ⟨⟨(send_start env (commandName modName) ca).1,
           (send_start env (commandName modName) ca).2, none⟩,
          ⟨(send_failure env (commandName modName) ca e.className (format_exc e)).1,
           (send_failure env (commandName modName) ca e.className (format_exc e)).2, none⟩,
          ?_, ?_, ?_, ?_, ?_, format_exc_ne e, ?_⟩
  · simp [wrapped, innerRun, h0, h1]
  · simp [send_start, send_log, basicParams, make_basic_params]
  · simp [send_failure, send_log, basicParams, make_basic_params]
  · simp [send_failure, send_log, basicParams, make_basic_params]
  · refine ⟨logMessage env { basicParams (commandName modName) ca with
      exception := some e.className, success := some false, version := some env.version,
      user := some env.user, sessionId := some env.sessionId }, ?_⟩
    simp [send_failure, send_log, strTruthy_some (format_exc_ne e)]
  · simp [wrapped, innerRun, h0, h1, hne]

/-- Witness for C2 at a concrete ValueError-raising operation. -/
theorem C2_failure_event_and_reraise_witness :
    excV.expected = false ∧
    ∃ a0 a1 : Attempt,
      (wrapped envW "clusterfuzz.commands.reproduce" caW
        (Except.error excV : Except Exc Nat) oracleNone).events = [a0, a1] ∧
      a0.record.success = none ∧
      a1.record.success = some false ∧
      a1.record.exception = some excV.className ∧
      (∃ base : String, a1.record.message = some (base ++ "\n" ++ format_exc excV)) ∧
      format_exc excV ≠ "" ∧
      (wrapped envW "clusterfuzz.commands.reproduce" caW
        (Except.error excV : Except Exc Nat) oracleNone).outcome =
        WrapOutcome.raised excV :=
  ⟨rfl, C2_failure_event_and_reraise envW "clusterfuzz.commands.reproduce" caW
    excV oracleNone rfl rfl rfl⟩

/-- C3: a wrapped operation that raises a user-interrupt or expected-category
exception, with both event sends returning normally, makes the wrapped
callable exit the process with status 1 after logging a short message, and no
exception propagates to the caller. -/
theorem C3_expected_exception_exits (env : Env) (modName : String) (ca : CallArgs)
    {α : Type} (e : Exc) (oracle : Nat → Option Exc)
    (hexp : e.expected = true) (h0 : oracle 0 = none) (h1 : oracle 1 = none) :
    (wrapped env modName ca (Except.error e : Except Exc α) oracle).outcome =
      WrapOutcome.exited 1 ∧
    (wrapped env modName ca (Except.error e : Except Exc α) oracle).logged =
      [e.className ++ ": " ++ e.msg] ∧
    ∀ e2 : Exc, (wrapped env modName ca (Except.error e : Except Exc α) oracle).outcome ≠
      WrapOutcome.raised e2 := by
  refine ⟨?_, ?_, ?_⟩
  · simp [wrapped, innerRun, h0, h1, hexp]
  · simp [wrapped, innerRun, h0, h1, hexp]
  · intro e2
    simp [wrapped, innerRun, h0, h1, hexp]

/-- Witness for C3 at a concrete expected exception. -/
theorem C3_expected_exception_exits_witness :
    excE.expected = true ∧
    (wrapped envW "clusterfuzz.commands.reproduce" caW
      (Except.error excE : Except Exc Nat) oracleNone).outcome = WrapOutcome.exited 1 ∧
    (wrapped envW "clusterfuzz.commands.reproduce" caW
      (Except.error excE : Except Exc Nat) oracleNone).logged =
      [excE.className ++ ": " ++ excE.msg] ∧
    ∀ e2 : Exc, (wrapped envW "clusterfuzz.commands.reproduce" caW
      (Except.error excE : Except Exc Nat) oracleNone).outcome ≠ WrapOutcome.raised e2 :=
  ⟨rfl, C3_expected_exception_exits envW "clusterfuzz.commands.reproduce" caW
    excE oracleNone rfl rfl rfl⟩

end Clusterfuzz

namespace Clusterfuzz

/-- C4 counterexample: for the concrete record `paramsX` (success absent,
goma-disable flag false, testcase id "disabled") the message built by the
Event Sender does not start with "started" — it starts with the user — and it
contains "disabled" although the goma-disable flag is false. -/
theorem C4_counterexample_message_shape :
    ∃ msg : String,
      (send_log envX paramsX none).1.message = some msg ∧
      paramsX.success = none ∧
      ¬ StartsWithS msg "started" ∧
      paramsX.disableGoma = false ∧
      ContainsS msg "disabled" := by
  refine ⟨"alice started running reproduce with testcase=disabled, build_type=chromium, current=False, and goma=enabled",
          by decide, rfl, ?_, rfl, ?_⟩
  · rw [startsWithS_iff]
    decide
  · exact ⟨"alice started running reproduce with testcase=",
           ", build_type=chromium, current=False, and goma=enabled", by decide⟩

/-- C4 (amended): for every record, the message built by the Event Sender
starts with the user, a space, and then a prefix determined solely by the
success field; it contains the user, command, testcase id and build type as
literal substrings; it contains "disabled" whenever the goma-disable flag is
true and "enabled" whenever it is false; and the stack trace is appended on a
new line exactly when a non-empty stack trace is supplied. -/
theorem C4_message_contents (env : Env) (p : Params) (st : Option String) :
    ∃ msg : String,
      (send_log env p st).1.message = some msg ∧
      StartsWithS msg (env.user ++ " " ++ prefixOf p.success) ∧
      ContainsS msg env.user ∧ ContainsS msg p.command ∧
      ContainsS msg p.testcaseId ∧ ContainsS msg p.buildType ∧
      (p.disableGoma = true → ContainsS msg "disabled") ∧
      (p.disableGoma = false → ContainsS msg "enabled") ∧
      (st = none → msg = logMessage env p) ∧
      (∀ s : String, st = some s → s ≠ "" → msg = logMessage env p ++ "\n" ++ s) := by
  obtain ⟨hsw, hcu, hcc, hct, hcb, hgd, hge⟩ := logMessage_facts env p
  by_cases htr : strTruthy st = true
  · obtain ⟨s, rfl⟩ : ∃ s : String, st = some s := by
      cases st with
      | none => simp [strTruthy] at htr
      | some s => exact ⟨s, rfl⟩
    refine ⟨logMessage env p ++ "\n" ++ s, ?_, ?_, ?_, ?_, ?_, ?_, ?_, ?_, ?_, ?_⟩
    · rw [send_log_message, htr]
      rfl
    · exact startsWithS_append (startsWithS_append hsw "\n") s
    · exact containsS_append (containsS_append hcu "\n") s
    · exact containsS_append (containsS_append hcc "\n") s
    · exact containsS_append (containsS_append hct "\n") s
    · exact containsS_append (containsS_append hcb "\n") s
    · intro hg
      exact containsS_append (containsS_append (hgd hg) "\n") s
    · intro hg
      exact containsS_append (containsS_append (hge hg) "\n") s
    · intro h
      cases h
    · intro s2 hs2 _
      cases hs2
      rfl
  · refine ⟨logMessage env p, ?_, hsw, hcu, hcc, hct, hcb, hgd, hge, fun _ => rfl, ?_⟩
    · rw [send_log_message, eq_false_of_ne_true htr]
      rfl
    · intro s hs hne
      subst hs
      simp [strTruthy, hne] at htr

/-- Witness for the amended C4, once with a goma-enabled record and a
supplied stack trace, once with a goma-disabled record and no stack trace. -/
theorem C4_message_contents_witness :
    (∃ msg : String,
      (send_log envW paramsY (some "Traceback: boom")).1.message = some msg ∧
      StartsWithS msg (envW.user ++ " " ++ prefixOf paramsY.success) ∧
      ContainsS msg envW.user ∧ ContainsS msg paramsY.command ∧
      ContainsS msg paramsY.testcaseId ∧ ContainsS msg paramsY.buildType ∧
      (paramsY.disableGoma = true → ContainsS msg "disabled") ∧
      (paramsY.disableGoma = false → ContainsS msg "enabled") ∧
      ((some "Traceback: boom" : Option String) = none → msg = logMessage envW paramsY) ∧
      (∀ s : String, (some "Traceback: boom" : Option String) = some s → s ≠ "" →
        msg = logMessage envW paramsY ++ "\n" ++ s)) ∧
    (∃ msg : String,
      (send_log envW paramsX none).1.message = some msg ∧
      StartsWithS msg (envW.user ++ " " ++ prefixOf paramsX.success) ∧
      ContainsS msg envW.user ∧ ContainsS msg paramsX.command ∧
      ContainsS msg paramsX.testcaseId ∧ ContainsS msg paramsX.buildType ∧
      (paramsX.disableGoma = true → ContainsS msg "disabled") ∧
      (paramsX.disableGoma = false → ContainsS msg "enabled") ∧
      ((none : Option String) = none → msg = logMessage envW paramsX) ∧
      (∀ s : String, (none : Option String) = some s → s ≠ "" →
        msg = logMessage envW paramsX ++ "\n" ++ s)) :=
  ⟨C4_message_contents envW paramsY (some "Traceback: boom"),
   C4_message_contents envW paramsX none⟩

end Clusterfuzz

namespace Clusterfuzz

/-- C5: an unexpected exception raised by a send is never caught by the
decorator: it propagates to the caller whether it arises in the start send,
in the success send, or in the failure send — in the last case masking the
original wrapped-operation failure. -/
theorem C5_send_failure_propagates (env : Env) (modName : String) (ca : CallArgs)
    {α : Type} (v : α) (ef e : Exc) (he : e.expected = false) :
    (∀ oracle : Nat → Option Exc, oracle 0 = some e → oracle 1 = none →
      (wrapped env modName ca (Except.ok v) oracle).outcome = WrapOutcome.raised e) ∧
    (∀ oracle : Nat → Option Exc, oracle 0 = none → oracle 1 = some e → oracle 2 = none →
      (wrapped env modName ca (Except.ok v) oracle).outcome = WrapOutcome.raised e) ∧
    (∀ oracle : Nat → Option Exc, oracle 0 = none → oracle 1 = some e →
      (wrapped env modName ca (Except.error ef : Except Exc α) oracle).outcome =
        WrapOutcome.raised e) := by
  refine ⟨?_, ?_, ?_⟩
  · intro oracle h0 h1
    simp [wrapped, innerRun, h0, h1, he]
  · intro oracle h0 h1 h2
    simp [wrapped, innerRun, h0, h1, h2, he]
  · intro oracle h0 h1
    simp [wrapped, innerRun, h0, h1, he]

/-- Witness for C5: the concrete transport error `excH` surfaces as the
outcome in all three send positions. -/
theorem C5_send_failure_propagates_witness :
    excH.expected = false ∧
    (wrapped envW "clusterfuzz.commands.reproduce" caW (Except.ok (0 : Nat))
      oracleFail0).outcome = WrapOutcome.raised excH ∧
    (wrapped envW "clusterfuzz.commands.reproduce" caW (Except.ok (0 : Nat))
      oracleFail1).outcome = WrapOutcome.raised excH ∧
    (wrapped envW "clusterfuzz.commands.reproduce" caW
      (Except.error excV : Except Exc Nat) oracleFail1).outcome = WrapOutcome.raised excH :=
  ⟨rfl,
   (C5_send_failure_propagates envW "clusterfuzz.commands.reproduce" caW
     (0 : Nat) excV excH rfl).1 oracleFail0 rfl rfl,
   (C5_send_failure_propagates envW "clusterfuzz.commands.reproduce" caW
     (0 : Nat) excV excH rfl).2.1 oracleFail1 rfl rfl rfl,
   (C5_send_failure_propagates envW "clusterfuzz.commands.reproduce" caW
     (0 : Nat) excV excH rfl).2.2 oracleFail1 rfl rfl⟩

/-- C6: every envelope built by the Event Sender has the fixed log name,
resource type "project" with the fixed project-id label, and exactly one
entry whose jsonPayload is the enriched record; its severity is "ERROR" when
a non-empty stack trace is supplied and "INFO" when none is. -/
theorem C6_envelope_shape (env : Env) (p : Params) (st : Option String) :
    (send_log env p st).2.logName = "projects/clusterfuzz-tools/logs/client" ∧
    (send_log env p st).2.resource.type = "project" ∧
    (send_log env p st).2.resource.project_id = "clusterfuzz-tools" ∧
    ∃ sev : String,
      (send_log env p st).2.entries = [⟨(send_log env p st).1, sev⟩] ∧
      (st = none → sev = "INFO") ∧
      (∀ s : String, st = some s → s ≠ "" → sev = "ERROR") := by
  refine ⟨rfl, rfl, rfl, if strTruthy st then "ERROR" else "INFO", rfl, ?_, ?_⟩
  · rintro rfl
    simp [strTruthy]
  · rintro s rfl hs
    simp [strTruthy_some hs]

/-- Witness for C6, once without and once with a stack trace. -/
theorem C6_envelope_shape_witness :
    ((send_log envW paramsX none).2.logName = "projects/clusterfuzz-tools/logs/client" ∧
     (send_log envW paramsX none).2.resource.type = "project" ∧
     (send_log envW paramsX none).2.resource.project_id = "clusterfuzz-tools" ∧
     ∃ sev : String,
       (send_log envW paramsX none).2.entries = [⟨(send_log envW paramsX none).1, sev⟩] ∧
       ((none : Option String) = none → sev = "INFO") ∧
       (∀ s : String, (none : Option String) = some s → s ≠ "" → sev = "ERROR")) ∧
    ((send_log envW paramsX (some "tb")).2.logName = "projects/clusterfuzz-tools/logs/client" ∧
     (send_log envW paramsX (some "tb")).2.resource.type = "project" ∧
     (send_log envW paramsX (some "tb")).2.resource.project_id = "clusterfuzz-tools" ∧
     ∃ sev : String,
       (send_log envW paramsX (some "tb")).2.entries =
         [⟨(send_log envW paramsX (some "tb")).1, sev⟩] ∧
       ((some "tb" : Option String) = none → sev = "INFO") ∧
       (∀ s : String, (some "tb" : Option String) = some s → s ≠ "" → sev = "ERROR")) :=
  ⟨C6_envelope_shape envW paramsX none, C6_envelope_shape envW paramsX (some "tb")⟩

/-- C7: on every execution path — normal return, re-raised exception,
expected-category exit, failing sends — exactly one trailer line naming the
local log file path is printed. -/
theorem C7_trailer_printed_once {α : Type} (env : Env) (modName : String)
    (ca : CallArgs) (funcRes : Except Exc α) (oracle : Nat → Option Exc) :
    (wrapped env modName ca funcRes oracle).prints = [trailerLine env] := rfl

/-- C8: the value returned by the wrapped operation is discarded — the trace
of the wrapped callable does not depend on it — and on normal completion the
outcome is a plain return carrying no value. -/
theorem C8_return_value_discarded (env : Env) (modName : String) (ca : CallArgs)
    {α : Type} (v w : α) (oracle : Nat → Option Exc)
    (h0 : oracle 0 = none) (h1 : oracle 1 = none) :
    wrapped env modName ca (Except.ok v) oracle =
      wrapped env modName ca (Except.ok w) oracle ∧
    (wrapped env modName ca (Except.ok v) oracle).outcome = WrapOutcome.ret := by
  constructor
  · rfl
  · simp [wrapped, innerRun, h0, h1]

/-- Witness for C8 at two distinct concrete return values. -/
theorem C8_return_value_discarded_witness :
    wrapped envW "clusterfuzz.commands.reproduce" caW (Except.ok (0 : Nat)) oracleNone =
      wrapped envW "clusterfuzz.commands.reproduce" caW (Except.ok (1 : Nat)) oracleNone ∧
    (wrapped envW "clusterfuzz.commands.reproduce" caW (Except.ok (0 : Nat))
      oracleNone).outcome = WrapOutcome.ret :=
  C8_return_value_discarded envW "clusterfuzz.commands.reproduce" caW
    (0 : Nat) (1 : Nat) oracleNone rfl rfl

/-- C9: even for an expected-category exception, a failure event with success
false and the exception class name is sent (and delivered) before the process
exit with status 1. -/
theorem C9_failure_event_before_exit (env : Env) (modName : String) (ca : CallArgs)
    {α : Type} (e : Exc) (oracle : Nat → Option Exc)
    (hexp : e.expected = true) (h0 : oracle 0 = none) (h1 : oracle 1 = none) :
    ∃ a0 a1 : Attempt,
      (wrapped env modName ca (Except.error e : Except Exc α) oracle).events = [a0, a1] ∧
      a1.record.success = some false ∧
      a1.record.exception = some e.className ∧
      a1.sendError = none ∧
      (wrapped env modName ca (Except.error e : Except Exc α) oracle).outcome =
        WrapOutcome.exited 1 := by
  refine ⟨⟨(send_start env (commandName modName) ca).1,
           (send_start env (commandName modName) ca).2, none⟩,
          ⟨(send_failure env (commandName modName) ca e.className (format_exc e)).1,
           (send_failure env (commandName modName) ca e.className (format_exc e)).2, none⟩,
          ?_, ?_, ?_, rfl, ?_⟩
  · simp [wrapped, innerRun, h0, h1]
  · simp [send_failure, send_log, basicParams, make_basic_params]
  · simp [send_failure, send_log, basicParams, make_basic_params]
  · simp [wrapped, innerRun, h0, h1, hexp]

/-- Witness for C9 at a concrete user interrupt. -/
theorem C9_failure_event_before_exit_witness :
    excK.expected = true ∧
    ∃ a0 a1 : Attempt,
      (wrapped envW "clusterfuzz.commands.reproduce" caW
        (Except.error excK : Except Exc Nat) oracleNone).events = [a0, a1] ∧
      a1.record.success = some false ∧
      a1.record.exception = some excK.className ∧
      a1.sendError = none ∧
      (wrapped envW "clusterfuzz.commands.reproduce" caW
        (Except.error excK : Except Exc Nat) oracleNone).outcome = WrapOutcome.exited 1 :=
  ⟨rfl, C9_failure_event_before_exit envW "clusterfuzz.commands.reproduce" caW
    excK oracleNone rfl rfl rfl⟩

/-- C10: when the start send itself raises, the wrapped operation is never
invoked, a failure event naming the start-send exception class is still
attempted, and that exception then propagates — or, if it belongs to the
expected category, the process exits with status 1. -/
theorem C10_start_send_failure (env : Env) (modName : String) (ca : CallArgs)
    {α : Type} (funcRes : Except Exc α) (e1 : Exc) (oracle : Nat → Option Exc)
    (h0 : oracle 0 = some e1) (h1 : oracle 1 = none) :
    (wrapped env modName ca funcRes oracle).funcInvoked = false ∧
    ∃ a0 a1 : Attempt,
      (wrapped env modName ca funcRes oracle).events = [a0, a1] ∧
      a1.record.exception = some e1.className ∧
      a1.record.success = some false ∧
      (wrapped env modName ca funcRes oracle).outcome =
        (if e1.expected then WrapOutcome.exited 1 else WrapOutcome.raised e1) := by
  refine ⟨?_, ⟨(send_start env (commandName modName) ca).1,
               (send_start env (commandName modName) ca).2, some e1⟩,
          ⟨(send_failure env (commandName modName) ca e1.className (format_exc e1)).1,
           (send_failure env (commandName modName) ca e1.className (format_exc e1)).2, none⟩,
          ?_, ?_, ?_, ?_⟩
  · simp [wrapped, innerRun, h0, h1]
  · simp [wrapped, innerRun, h0, h1]
  · simp [send_failure, send_log, basicParams, make_basic_params]
  · simp [send_failure, send_log, basicParams, make_basic_params]
  · by_cases hb : e1.expected <;> simp [wrapped, innerRun, h0, h1, hb]

/-- Witness for C10: the start send raises the concrete transport error. -/
theorem C10_start_send_failure_witness :
    (wrapped envW "clusterfuzz.commands.reproduce" caW (Except.ok (7 : Nat))
      oracleFail0).funcInvoked = false ∧
    ∃ a0 a1 : Attempt,
      (wrapped envW "clusterfuzz.commands.reproduce" caW (Except.ok (7 : Nat))
        oracleFail0).events = [a0, a1] ∧
      a1.record.exception = some excH.className ∧
      a1.record.success = some false ∧
      (wrapped envW "clusterfuzz.commands.reproduce" caW (Except.ok (7 : Nat))
        oracleFail0).outcome =
        (if excH.expected then WrapOutcome.exited 1 else WrapOutcome.raised excH) :=
  C10_start_send_failure envW "clusterfuzz.commands.reproduce" caW
    (Except.ok (7 : Nat)) excH oracleFail0 rfl rfl

end Clusterfuzz
